import Mathlib

/-!
Verification development for the fitcheck / aegis-ml repository.

The fitcheck core is embedded shallowly:
* `fitcheck/api.py` (`plan`, `_resolve_seq_len`, `_build_report`) is translated
  directly from the source.
* `aegis/profilers/cost.py` (`_estimate_model_vram_gb`) is translated directly
  from the source.
* The modules `fitcheck.models.profiles`, `fitcheck.hardware.registry`,
  `fitcheck.solver`, `fitcheck.profilers.vram.components` and
  `fitcheck.profilers.sanity` are imported by `fitcheck/api.py` but their
  source files are not part of the repository snapshot; they are modelled
  from the specification (each such definition carries a
  `Modelled from the spec:` doc comment).

Python floats are modelled as exact rationals (`ℚ`); byte counts as `ℕ`.
Gigabytes are converted to bytes at 10^9 bytes per GB.
-/

namespace Fitcheck

/-- Token-length percentile statistics of an analyzed dataset
(`DatasetProfile.seq_len_stats` in `fitcheck.models.profiles`).
Modelled from the spec: "optional seq_len_stats\x7bp50,p95,p99,max\x7d". -/
structure SeqLenStats where
  p50 : Nat
  p95 : Nat
  p99 : Nat
  maxLen : Nat
deriving Repr, DecidableEq

/-- Modelled from the spec: "DatasetProfile: source, num_rows (≥0),
detected_format, optional seq_len_stats". The module
`fitcheck.datasets.analyzer` producing it is outside the snapshot; the
profile itself is the already-resolved input the core consumes. -/
structure DatasetProfile where
  source : String
  num_rows : Nat
  detected_format : String
  seq_len_stats : Option SeqLenStats
deriving Repr, DecidableEq

/-- Modelled from the spec: "ModelProfile: model_id, architecture, family,
hidden_size, num_layers, num_attention_heads, num_kv_heads,
intermediate_size, vocab_size, total_params, total_params_b". -/
structure ModelProfile where
  model_id : String
  architecture : String
  family : String
  hidden_size : Nat
  num_layers : Nat
  num_attention_heads : Nat
  num_kv_heads : Nat
  intermediate_size : Nat
  vocab_size : Nat
  total_params : Nat
  total_params_b : ℚ
deriving Repr, DecidableEq

/-- Modelled from the spec: "TrainingMethod: enumerated \x7bfull, lora, qlora\x7d". -/
inductive TrainingMethod where
  | full
  | lora
  | qlora
deriving Repr, DecidableEq

/-- String value of a `TrainingMethod`, as Python's `Enum.value`. -/
def TrainingMethod.value : TrainingMethod → String
  | .full => "full"
  | .lora => "lora"
  | .qlora => "qlora"

/-- Lower-casing of a string, character by character (the model of Python's
`str.lower()` / case-insensitive normalization). -/
def normalizeKey (s : String) : String :=
  String.mk (s.data.map Char.toLower)

/-- Modelled from the spec: construction `TrainingMethod(method.lower())` in
`fitcheck/api.py` line 58; a Python value-based enum lookup raises
`ValueError("... is not a valid TrainingMethod")` naming the bad value. -/
def TrainingMethod.parse (s : String) : Except String TrainingMethod :=
  match normalizeKey s with
  | "full" => .ok .full
  | "lora" => .ok .lora
  | "qlora" => .ok .qlora
  | _ => .error (s ++ " is not a valid TrainingMethod")

/-- Modelled from the spec: "LoRAConfig: rank (positive integer), ordered
sequence of target module names (may be empty → defaults apply)". -/
structure LoRAConfig where
  rank : Nat
  target_modules : List String := []
deriving Repr, DecidableEq

/-- Modelled from the spec: "HardwareSpec: name, total_vram_gb, overhead_gb,
usable_vram_gb = total − overhead". -/
structure HardwareSpec where
  name : String
  total_vram_gb : ℚ
  overhead_gb : ℚ
  usable_vram_gb : ℚ
deriving Repr, DecidableEq

/-- An integer as an exact rational in normal form (numerals are kept as
`Rat.mk'` literals so that later comparisons compute). -/
def qi (n : Int) : ℚ :=
  Rat.mk' n 1 one_ne_zero (Nat.coprime_one_right _)

/-- The rational 1.2 in normal form. -/
def q1p2 : ℚ := Rat.mk' 6 5 (by decide) (by decide)

/-- The rational 22.8 in normal form. -/
def q22p8 : ℚ := Rat.mk' 114 5 (by decide) (by decide)

/-- The rational 2.5 in normal form. -/
def q2p5 : ℚ := Rat.mk' 5 2 (by decide) (by decide)

/-- The rational 77.5 in normal form. -/
def q77p5 : ℚ := Rat.mk' 155 2 (by decide) (by decide)

/-- The rational 1.5 in normal form. -/
def q1p5 : ℚ := Rat.mk' 3 2 (by decide) (by decide)

/-- The rational 22.5 in normal form. -/
def q22p5 : ℚ := Rat.mk' 45 2 (by decide) (by decide)

/-- Modelled from the spec: the static GPU catalog of
`fitcheck.hardware.registry`, keyed by lower-cased name/alias; each entry
carries total, overhead, and the precomputed usable = total − overhead.
The 3090 entry matches the spec scenario "a 24GB card with 22.8GB usable"
and the test expectation `hardware_name == "NVIDIA RTX 3090"`. -/
def gpuAliasTable : List (String × HardwareSpec) :=
  [ ("3090", ⟨"NVIDIA RTX 3090", qi 24, q1p2, q22p8⟩),
    ("rtx 3090", ⟨"NVIDIA RTX 3090", qi 24, q1p2, q22p8⟩),
    ("4090", ⟨"NVIDIA RTX 4090", qi 24, q1p2, q22p8⟩),
    ("rtx 4090", ⟨"NVIDIA RTX 4090", qi 24, q1p2, q22p8⟩),
    ("a100", ⟨"NVIDIA A100 80GB", qi 80, q2p5, q77p5⟩),
    ("h100", ⟨"NVIDIA H100 80GB", qi 80, q2p5, q77p5⟩),
    ("a10g", ⟨"NVIDIA A10G", qi 24, q1p5, q22p5⟩),
    ("t4", ⟨"NVIDIA T4", qi 16, qi 1, qi 15⟩) ]

/-- Modelled from the spec: "`get_hardware(name_or_alias)` → HardwareSpec;
case-insensitive alias normalization ... Fails with a not-found error
enumerating all known names when no match exists." -/
def get_hardware (s : String) : Except String HardwareSpec :=
  match gpuAliasTable.lookup (normalizeKey s) with
  | some h => .ok h
  | none =>
      .error ("Unknown GPU: " ++ s ++ ". Known GPUs: " ++
        String.intercalate ", " (gpuAliasTable.map Prod.fst))

end Fitcheck

namespace Aegis

/-- Translated from `aegis/profilers/cost.py` `_estimate_model_vram_gb`:
qlora → 0.5 bytes/param (4-bit quantized), every other method → 2.0
bytes/param (fp16); MoE models multiply the base by 1.3. -/
def estimate_model_vram_gb (params_b : ℚ) (method : String) (is_moe : Bool) : ℚ :=
  let bytes_per_param : ℚ := if method = "qlora" then 1/2 else 2
  let base_gb := params_b * bytes_per_param
  if is_moe then base_gb * (13/10) else base_gb

end Aegis

namespace Fitcheck

/-- `_DEFAULT_SEQ_LEN` from `fitcheck/api.py` line 24. -/
def DEFAULT_SEQ_LEN : Nat := 512

/-- Translated from `fitcheck/api.py` `_resolve_seq_len` (lines 129-146):
explicit override (must be positive, else `ValueError`) > dataset p95
(only when `dataset.seq_len_stats` is not `None`) > default 512, returning
the resolved length together with a reasoning annotation. -/
def resolveSeqLen (explicit : Option Int) (dataset : Option DatasetProfile) :
    Except String (Nat × String) :=
  match explicit with
  | some e =>
      if e ≤ 0 then
        .error ("seq_len must be positive, got " ++ toString e)
      else
        .ok (e.toNat, "--seq-len " ++ toString e)
  | none =>
      match dataset with
      | some d =>
          match d.seq_len_stats with
          | some st => .ok (st.p95, "dataset p95 (" ++ toString st.p95 ++ " tokens)")
          | none => .ok (DEFAULT_SEQ_LEN, "default (" ++ toString DEFAULT_SEQ_LEN ++ ")")
      | none => .ok (DEFAULT_SEQ_LEN, "default (" ++ toString DEFAULT_SEQ_LEN ++ ")")

/-- Modelled from the spec: default LoRA target modules used when
`LoRAConfig.target_modules` is empty ("may be empty → defaults apply"). -/
def defaultTargetModules : List String :=
  ["q_proj", "k_proj", "v_proj", "o_proj"]

/-- Number of adapted modules of a `LoRAConfig` (defaults apply when empty). -/
def LoRAConfig.moduleCount (l : LoRAConfig) : Nat :=
  if l.target_modules.isEmpty then defaultTargetModules.length
  else l.target_modules.length

/-- Modelled from the spec: `get_trainable_params` of
`fitcheck.profilers.vram.components`. "Trainable-parameter count is a
function of rank, hidden size, layer count, and target-module count for
lora/qlora, and equals total parameters for full." Each adapted module
contributes two rank×hidden matrices per layer. -/
def get_trainable_params (m : ModelProfile) (method : TrainingMethod)
    (l : LoRAConfig) : Nat :=
  match method with
  | .full => m.total_params
  | .lora => 2 * l.rank * m.hidden_size * m.num_layers * l.moduleCount
  | .qlora => 2 * l.rank * m.hidden_size * m.num_layers * l.moduleCount

/-- Modelled from the spec: "ComponentEstimate: name, bytes (≥0),
description — a pure value." -/
structure ComponentEstimate where
  name : String
  bytes : Nat
  description : String
deriving Repr, DecidableEq

/-- Modelled from the spec: "VRAMBreakdown: weights, optimizer, gradients,
activations, logits_buffer (each a ComponentEstimate) +
dynamic_margin_bytes." -/
structure VRAMBreakdown where
  weights : ComponentEstimate
  optimizer : ComponentEstimate
  gradients : ComponentEstimate
  activations : ComponentEstimate
  logits_buffer : ComponentEstimate
  dynamic_margin_bytes : Nat
deriving Repr, DecidableEq

/-- Modelled from the spec: "Total is always the live sum of these fields,
never stored independently." -/
def VRAMBreakdown.totalBytes (b : VRAMBreakdown) : Nat :=
  b.weights.bytes + b.optimizer.bytes + b.gradients.bytes +
    b.activations.bytes + b.logits_buffer.bytes + b.dynamic_margin_bytes

/-- Modelled from the spec: weights component. "full → 2 bytes/param (bf16);
lora → 2 bytes/param base + small fp32 adapter; qlora → ~0.5 bytes/param
(4-bit) base + adapter." Adapters are fp32 (4 bytes per trainable param). -/
def weightsBytes (m : ModelProfile) (method : TrainingMethod)
    (trainable : Nat) : Nat :=
  match method with
  | .full => 2 * m.total_params
  | .lora => 2 * m.total_params + 4 * trainable
  | .qlora => m.total_params / 2 + 4 * trainable

/-- Modelled from the spec: optimizer component. "full → 2× trainable-parameter
bytes at fp32 (AdamW momentum+variance over all params); lora/qlora → only
adapter (trainable) parameters carry optimizer state, using a reduced-precision
(≈1 byte/param) paged optimizer." Full: 2 states × 4 bytes per param. -/
def optimizerBytes (method : TrainingMethod) (trainable : Nat) : Nat :=
  match method with
  | .full => 8 * trainable
  | .lora => trainable
  | .qlora => trainable

/-- Modelled from the spec: gradients component, "trainable parameters only,
at 2 bytes/param." -/
def gradientsBytes (trainable : Nat) : Nat :=
  2 * trainable

/-- Largest candidate `c ≤ bound` with `c * c ≤ n`, by downward scan. -/
def isqrtDown : Nat → Nat → Nat
  | 0, _ => 0
  | c + 1, n => if (c + 1) * (c + 1) ≤ n then c + 1 else isqrtDown c n

/-- Integer square root (largest `k` with `k * k ≤ n`), used for the
square-root-in-layers activation reduction under checkpointing. -/
def isqrt (n : Nat) : Nat :=
  isqrtDown n n

/-- Modelled from the spec: activations component "scales with
micro_batch_size × seq_len × hidden_size × num_layers × head count;
gradient_checkpointing reduces this from linear-in-layers to roughly
square-root-in-layers." -/
def activationsBytes (m : ModelProfile) (mbs seq : Nat) (ckpt : Bool) : Nat :=
  mbs * seq * m.hidden_size * m.num_attention_heads *
    (if ckpt then isqrt m.num_layers else m.num_layers)

/-- Modelled from the spec: logits buffer, "micro_batch_size × seq_len ×
vocab_size × 4 bytes (fp32)." -/
def logitsBytes (m : ModelProfile) (mbs seq : Nat) : Nat :=
  4 * mbs * seq * m.vocab_size

/-- Modelled from the spec: "a fixed fractional safety margin (≈5–8%) applied
once to the summed total, not per component." 6 percent. -/
def DYNAMIC_MARGIN_PCT : Nat := 6

/-- Modelled from the spec: the five-component VRAM model of
`fitcheck.profilers.vram.components`, with the dynamic margin computed once
over the summed components. -/
def computeBreakdown (m : ModelProfile) (method : TrainingMethod)
    (mbs seq : Nat) (l : LoRAConfig) (ckpt : Bool) : VRAMBreakdown :=
  let trainable := get_trainable_params m method l
  let w := weightsBytes m method trainable
  let o := optimizerBytes method trainable
  let g := gradientsBytes trainable
  let a := activationsBytes m mbs seq ckpt
  let lb := logitsBytes m mbs seq
  let margin := (w + o + g + a + lb) * DYNAMIC_MARGIN_PCT / 100
  ⟨⟨"weights", w, "model weights"⟩,
   ⟨"optimizer", o, "optimizer state"⟩,
   ⟨"gradients", g, "gradient buffers"⟩,
   ⟨"activations", a, "forward activations"⟩,
   ⟨"logits_buffer", lb, "per-token vocabulary scores"⟩,
   margin⟩

/-- Bytes per gigabyte used when comparing a byte total against a GB budget. -/
def GB_BYTES : ℚ := 1000000000

/-- A byte total fits a GB budget when bytes ≤ budgetGB · 10⁹, decided in
exact integer arithmetic on the budget's numerator and denominator
(equivalent to the rational comparison since the denominator is positive). -/
def fitsBudget (budgetGB : ℚ) (bytes : Nat) : Bool :=
  decide ((bytes : Int) * (budgetGB.den : Int) ≤ budgetGB.num * 1000000000)

/-- Whether the configuration (micro batch `b`, checkpointing `ckpt`) fits the
conservative usable budget of the hardware. -/
def fitsAt (m : ModelProfile) (hw : HardwareSpec) (method : TrainingMethod)
    (b seq : Nat) (l : LoRAConfig) (ckpt : Bool) : Bool :=
  fitsBudget hw.usable_vram_gb (computeBreakdown m method b seq l ckpt).totalBytes

/-- Modelled from the spec: "TrainingConfig: micro_batch_size (≥1),
gradient_accumulation_steps (≥1), effective_batch_size (= product of the
two), seq_len, gradient_checkpointing flag, optimizer name, lora_rank,
lora_targets, vram_breakdown, reasoning (key/value annotations including
verdict ∈ \x7bfits, does_not_fit\x7d and a detail string)." -/
structure TrainingConfig where
  micro_batch_size : Nat
  gradient_accumulation_steps : Nat
  effective_batch_size : Nat
  seq_len : Nat
  gradient_checkpointing : Bool
  optimizer : String
  lora_rank : Nat
  lora_targets : List String
  vram_breakdown : VRAMBreakdown
  reasoning : List (String × String)
deriving Repr, DecidableEq

/-- Modelled from the spec: "SolverResult: recommended (always present),
aggressive (present only if recommended fits), warnings (ordered sequence
of strings)." -/
structure SolverResult where
  recommended : TrainingConfig
  aggressive : Option TrainingConfig
  warnings : List String
deriving Repr, DecidableEq

/-- Modelled from the spec: the target effective batch size the solver reaches
"using gradient_accumulation_steps ... when micro_batch_size alone is
capacity-limited" (a named constant, per the design notes). -/
def TARGET_EFFECTIVE_BATCH : Nat := 32

/-- Gradient accumulation steps chosen for a given micro batch size. -/
def accumFor (b : Nat) : Nat :=
  max 1 (TARGET_EFFECTIVE_BATCH / b)

/-- Shortfall / fit detail string citing required vs. usable gigabytes. -/
def fitDetail (hw : HardwareSpec) (bytes : Nat) : String :=
  let requiredGB : ℚ := (bytes : ℚ) / GB_BYTES
  let usableGB := hw.usable_vram_gb
  "required " ++ toString requiredGB ++ " GB, usable " ++ toString usableGB ++ " GB"

/-- Modelled from the spec: construction of one evaluated `TrainingConfig`.
Checkpointing is disabled unless required to fit (tie-break rule); verdict is
"fits" iff the total is within the usable budget, else "does_not_fit" with a
detail string citing required vs. usable gigabytes. -/
def buildConfig (m : ModelProfile) (hw : HardwareSpec) (method : TrainingMethod)
    (b seq : Nat) (l : LoRAConfig) : TrainingConfig :=
  let ckpt := if fitsAt m hw method b seq l false then false else true
  let br := computeBreakdown m method b seq l ckpt
  let fits := fitsBudget hw.usable_vram_gb br.totalBytes
  ⟨b, accumFor b, b * accumFor b, seq, ckpt,
   (match method with
    | .full => "adamw_torch"
    | .lora => "paged_adamw_8bit"
    | .qlora => "paged_adamw_8bit"),
   l.rank,
   (if l.target_modules.isEmpty then defaultTargetModules else l.target_modules),
   br,
   [("verdict", if fits then "fits" else "does_not_fit"),
    ("detail", fitDetail hw br.totalBytes)]⟩

/-- Modelled from the spec: advisory warning "when the logits buffer exceeds a
material fraction (e.g. >15%) of total VRAM", plus the eval-seq-len logits
spike risk when the eval logits requirement is larger. -/
def solverWarnings (m : ModelProfile) (c : TrainingConfig)
    (evalSeq : Option Nat) : List String :=
  let base :=
    if 15 * c.vram_breakdown.totalBytes < 100 * c.vram_breakdown.logits_buffer.bytes then
      ["logits buffer exceeds 15% of total VRAM"]
    else []
  match evalSeq with
  | some es =>
      if logitsBytes m c.micro_batch_size c.seq_len < logitsBytes m c.micro_batch_size es then
        base ++ ["eval logits spike exceeds training logits buffer"]
      else base
  | none => base

/-- Modelled from the spec: `estimate_fixed` "→ SolverResult with exactly one
TrainingConfig (no search). ... No aggressive alternative is produced." -/
def estimate_fixed (m : ModelProfile) (hw : HardwareSpec)
    (method : TrainingMethod) (batch_size seq : Nat) (l : LoRAConfig)
    (evalSeq : Option Nat) : SolverResult :=
  let c := buildConfig m hw method batch_size seq l
  ⟨c, none, solverWarnings m c evalSeq⟩

/-- Modelled from the spec: "the search space is small and bounded by a fixed
maximum batch-size ceiling." -/
def MAX_MICRO_BATCH : Nat := 64

/-- Largest micro batch size `b ≤ n` that fits the usable budget with
checkpointing enabled (the weakest memory requirement), or `none`. -/
def findLargest (m : ModelProfile) (hw : HardwareSpec)
    (method : TrainingMethod) (seq : Nat) (l : LoRAConfig) : Nat → Option Nat
  | 0 => none
  | b + 1 =>
      if fitsAt m hw method (b + 1) seq l true then some (b + 1)
      else findLargest m hw method seq l b

/-- Whether a candidate one batch step further still fits the raw (total, not
usable) capacity — the bound on the aggressive alternative. -/
def fitsRawAt (m : ModelProfile) (hw : HardwareSpec) (method : TrainingMethod)
    (b seq : Nat) (l : LoRAConfig) : Bool :=
  fitsBudget hw.total_vram_gb (computeBreakdown m method b seq l true).totalBytes

/-- Modelled from the spec: `solve` searches for "the largest micro_batch_size
whose VRAM total fits the conservative usable budget"; "if even
micro_batch_size = 1 with checkpointing enabled does not fit, return that
minimal configuration anyway, annotated verdict=does_not_fit with the
shortfall — the solver never raises for infeasibility"; the aggressive
alternative advances one batch step, bounded by raw total_vram_gb, and is
never offered on top of an infeasible baseline. -/
def solve (m : ModelProfile) (hw : HardwareSpec) (method : TrainingMethod)
    (seq : Nat) (l : LoRAConfig) (evalSeq : Option Nat) : SolverResult :=
  match findLargest m hw method seq l MAX_MICRO_BATCH with
  | some b =>
      let c := buildConfig m hw method b seq l
      let aggressive :=
        if fitsRawAt m hw method (b + 1) seq l then
          some (buildConfig m hw method (b + 1) seq l)
        else none
      ⟨c, aggressive, solverWarnings m c evalSeq⟩
  | none =>
      let c := buildConfig m hw method 1 seq l
      ⟨c, none, solverWarnings m c evalSeq⟩

/-- Modelled from the spec: "SanityWarning: severity ∈ \x7binfo, warning,
critical\x7d, category, message." -/
structure SanityWarning where
  severity : String
  category : String
  message : String
deriving Repr, DecidableEq

/-- Modelled from the spec: the overfitting ratio
"ratio = num_rows / (trainable_params / 1e6)". -/
def sanityRatio (num_rows trainable : Nat) : ℚ :=
  (num_rows : ℚ) / ((trainable : ℚ) / 1000000)

/-- Modelled from the spec: the critical overfitting threshold
("Ratio < 10 → severity critical"). -/
def CRITICAL_OVERFIT_LIMIT : ℚ := 10

/-- Modelled from the spec: the "higher soft threshold" of the overfitting
rule; 30 (the spec scenario at ratio ≈31 emits no warning). -/
def SOFT_OVERFIT_LIMIT : ℚ := 30

/-- Modelled from the spec: the overfitting rule. "Ratio < 10 → severity
critical, category overfitting; between 10 and a higher soft threshold →
warning; above → no warning." -/
def overfitWarnings (d : DatasetProfile) (trainable : Nat) : List SanityWarning :=
  if sanityRatio d.num_rows trainable < CRITICAL_OVERFIT_LIMIT then
    [⟨"critical", "overfitting",
      "only " ++ toString d.num_rows ++ " rows for " ++ toString trainable ++
        " trainable params; severe overfitting risk"⟩]
  else if sanityRatio d.num_rows trainable < SOFT_OVERFIT_LIMIT then
    [⟨"warning", "overfitting",
      "low data-to-parameter ratio; consider more data or a lower rank"⟩]
  else []

/-- Modelled from the spec: the insufficient-data rule, "num_rows <
effective_batch_size → warning that the dataset cannot fill one full
batch." -/
def insufficientWarnings (d : DatasetProfile) (c : TrainingConfig) :
    List SanityWarning :=
  if d.num_rows < c.effective_batch_size then
    [⟨"warning", "insufficient_data",
      "dataset has fewer rows than one effective batch"⟩]
  else []

/-- Modelled from the spec: `check_training_sanity(dataset, config,
trainable_params)` → ordered SanityWarnings; overfitting rule first, then
the insufficient-data rule ("rule order fixed for reproducible output"). -/
def check_training_sanity (d : DatasetProfile) (c : TrainingConfig)
    (trainable : Nat) : List SanityWarning :=
  overfitWarnings d trainable ++ insufficientWarnings d c

/-- Error taxonomy of `plan` (section 7 of the spec): `invalidArgument` for a
bad method name or non-positive seq_len (Python `ValueError`), `notFound`
for an unknown GPU alias (Python `KeyError`). -/
inductive PlanError where
  | invalidArgument (msg : String)
  | notFound (msg : String)
deriving Repr, DecidableEq

/-- Modelled from the spec: "PlanReport: flat aggregate of model/hardware/
dataset summaries, trainable-parameter counts, and SolverResult", with the
fields assembled by `_build_report` in `fitcheck/api.py`. -/
structure PlanReport where
  model_id : String
  architecture_summary : String
  total_params_b : ℚ
  vocab_size : Nat
  num_layers : Nat
  dataset_source : String
  dataset_rows : Nat
  dataset_format : String
  seq_len_stats : Option SeqLenStats
  seq_len_used : Nat
  seq_len_reasoning : String
  hardware_name : String
  total_vram_gb : ℚ
  overhead_gb : ℚ
  usable_vram_gb : ℚ
  method : String
  trainable_params : Nat
  trainable_pct : ℚ
  samples_per_epoch : ℚ
  solver_result : SolverResult
deriving Repr, DecidableEq

/-- Translated from `fitcheck/api.py` `_build_report` (lines 149-197):
dataset fields default to "none"/0/"unknown" when no dataset was analyzed. -/
def buildReport (m : ModelProfile) (hw : HardwareSpec) (tm : TrainingMethod)
    (resolved_seq_len : Nat) (seq_len_reasoning : String) (trainable : Nat)
    (trainable_pct : ℚ) (sr : SolverResult) (dataset : Option DatasetProfile) :
    PlanReport :=
  let dataset_source := match dataset with | some d => d.source | none => "none"
  let dataset_rows := match dataset with | some d => d.num_rows | none => 0
  let dataset_format := match dataset with | some d => d.detected_format | none => "unknown"
  let stats := match dataset with | some d => d.seq_len_stats | none => none
  let samples_per_epoch : ℚ := match dataset with | some d => (d.num_rows : ℚ) | none => 0
  ⟨m.model_id, m.architecture, m.total_params_b, m.vocab_size, m.num_layers,
   dataset_source, dataset_rows, dataset_format, stats,
   resolved_seq_len, seq_len_reasoning,
   hw.name, hw.total_vram_gb, hw.overhead_gb, hw.usable_vram_gb,
   tm.value, trainable, trainable_pct, samples_per_epoch, sr⟩

/-- Formatting of a sanity warning appended to the solver warnings, from
`fitcheck/api.py` line 111. -/
def fmtSanityWarning (w : SanityWarning) : String :=
  "[" ++ w.severity ++ "] " ++ w.category ++ ": " ++ w.message

/-- Translated from `fitcheck/api.py` `plan` (lines 27-126). The external
collaborators are already-resolved inputs: `profile` stands for the result
of `resolve_model(model_id)` and `dataset` for the result of
`analyze_local(dataset_path)` (both modules are outside the snapshot).
Order of effects follows the source: method (line 58), hardware (line 61),
sequence-length resolution (line 72), solver (lines 79-97), sanity checks
appended to the warnings (lines 104-111), report assembly (line 114). -/
def plan (profile : ModelProfile) (dataset : Option DatasetProfile)
    (method : String) (gpu : String) (seq_len : Option Int) (lora_rank : Nat)
    (batch_size : Option Nat) (eval_seq_len : Option Nat) :
    Except PlanError PlanReport :=
  match TrainingMethod.parse method with
  | .error msg => .error (.invalidArgument msg)
  | .ok tm =>
    match get_hardware gpu with
    | .error msg => .error (.notFound msg)
    | .ok hw =>
      match resolveSeqLen seq_len dataset with
      | .error msg => .error (.invalidArgument msg)
      | .ok (resolved, reasoning) =>
        let lcfg : LoRAConfig := ⟨lora_rank, []⟩
        let sr :=
          match batch_size with
          | some b => estimate_fixed profile hw tm b resolved lcfg eval_seq_len
          | none => solve profile hw tm resolved lcfg eval_seq_len
        let trainable := get_trainable_params profile tm lcfg
        let trainable_pct : ℚ :=
          (trainable : ℚ) / (profile.total_params : ℚ) * 100
        let sr2 :=
          match dataset with
          | some d =>
              ⟨sr.recommended, sr.aggressive,
               sr.warnings ++
                 (check_training_sanity d sr.recommended trainable).map fmtSanityWarning⟩
          | none => sr
        .ok (buildReport profile hw tm resolved reasoning trainable trainable_pct
              sr2 dataset)

/-- The Llama 3.1 8B profile used throughout the repository's tests
(`tests/fitcheck/conftest.py` `make_llama_8b`). -/
def llama8b : ModelProfile :=
  ⟨"meta-llama/Llama-3.1-8B", "LlamaForCausalLM", "llama",
   4096, 32, 32, 8, 14336, 128256, 8030000000, (803 : ℚ) / 100⟩

/-- The RTX 3090 catalog entry (24 GB total, 22.8 GB usable). -/
def hw3090 : HardwareSpec :=
  ⟨"NVIDIA RTX 3090", qi 24, q1p2, q22p8⟩

/-- A rank-16 LoRA configuration with default target modules. -/
def lcfg16 : LoRAConfig :=
  ⟨16, []⟩

/-- A 500-row alpaca dataset profile with token-length statistics (p95 = 870),
as in the spec's reasoning example "dataset p95 (870 tokens)". -/
def dsAlpaca : DatasetProfile :=
  ⟨"train.jsonl", 500, "alpaca", some ⟨200, 870, 950, 1000⟩⟩

/-- A 50-row alpaca dataset profile without token statistics (the spec's
overfitting scenario). -/
def ds50 : DatasetProfile :=
  ⟨"train.jsonl", 50, "alpaca", none⟩

/-- A concrete evaluated training configuration (qlora, batch 1, seq 512 on
the 3090). -/
def cfgQ : TrainingConfig :=
  buildConfig llama8b hw3090 .qlora 1 512 lcfg16

/-! ### Helper lemmas -/

/-- The five-component sum of a computed breakdown, before the margin. -/
def componentSum (m : ModelProfile) (method : TrainingMethod) (b s : Nat)
    (l : LoRAConfig) (ckpt : Bool) : Nat :=
  weightsBytes m method (get_trainable_params m method l) +
    optimizerBytes method (get_trainable_params m method l) +
    gradientsBytes (get_trainable_params m method l) +
    activationsBytes m b s ckpt + logitsBytes m b s

theorem totalBytes_computeBreakdown (m : ModelProfile) (method : TrainingMethod)
    (b s : Nat) (l : LoRAConfig) (ckpt : Bool) :
    (computeBreakdown m method b s l ckpt).totalBytes =
      componentSum m method b s l ckpt +
        componentSum m method b s l ckpt * DYNAMIC_MARGIN_PCT / 100 := rfl

theorem componentSum_mono (m : ModelProfile) (method : TrainingMethod)
    (l : LoRAConfig) (ckpt : Bool) {b b' s s' : Nat} (hb : b ≤ b') (hs : s ≤ s') :
    componentSum m method b s l ckpt ≤ componentSum m method b' s' l ckpt := by
  unfold componentSum
  have ha : activationsBytes m b s ckpt ≤ activationsBytes m b' s' ckpt := by
    unfold activationsBytes
    exact Nat.mul_le_mul
      (Nat.mul_le_mul (Nat.mul_le_mul (Nat.mul_le_mul hb hs) le_rfl) le_rfl) le_rfl
  have hl : logitsBytes m b s ≤ logitsBytes m b' s' := by
    unfold logitsBytes
    exact Nat.mul_le_mul (Nat.mul_le_mul (Nat.mul_le_mul le_rfl hb) hs) le_rfl
  omega

theorem totalBytes_mono (m : ModelProfile) (method : TrainingMethod)
    (l : LoRAConfig) (ckpt : Bool) {b b' s s' : Nat} (hb : b ≤ b') (hs : s ≤ s') :
    (computeBreakdown m method b s l ckpt).totalBytes ≤
      (computeBreakdown m method b' s' l ckpt).totalBytes := by
  rw [totalBytes_computeBreakdown, totalBytes_computeBreakdown]
  have h := componentSum_mono m method l ckpt hb hs
  have hm := Nat.div_le_div_right (c := 100) (Nat.mul_le_mul h (le_refl DYNAMIC_MARGIN_PCT))
  omega

theorem isqrtDown_le (c n : Nat) : isqrtDown c n ≤ c := by
  induction c with
  | zero => exact le_rfl
  | succ k ih =>
      unfold isqrtDown
      split
      · exact le_rfl
      · exact Nat.le_succ_of_le ih

theorem isqrt_le_self (n : Nat) : isqrt n ≤ n :=
  isqrtDown_le n n

theorem componentSum_ckpt_le (m : ModelProfile) (method : TrainingMethod)
    (l : LoRAConfig) (b s : Nat) :
    componentSum m method b s l true ≤ componentSum m method b s l false := by
  unfold componentSum
  have ha : activationsBytes m b s true ≤ activationsBytes m b s false := by
    unfold activationsBytes
    exact Nat.mul_le_mul le_rfl (by simpa using isqrt_le_self m.num_layers)
  omega

theorem totalBytes_ckpt_le (m : ModelProfile) (method : TrainingMethod)
    (l : LoRAConfig) (b s : Nat) :
    (computeBreakdown m method b s l true).totalBytes ≤
      (computeBreakdown m method b s l false).totalBytes := by
  rw [totalBytes_computeBreakdown, totalBytes_computeBreakdown]
  have h := componentSum_ckpt_le m method l b s
  have hm := Nat.div_le_div_right (c := 100) (Nat.mul_le_mul h (le_refl DYNAMIC_MARGIN_PCT))
  omega

theorem fitsBudget_of_le (B : ℚ) {x y : Nat} (h : x ≤ y) :
    fitsBudget B y = true → fitsBudget B x = true := by
  unfold fitsBudget
  simp only [decide_eq_true_eq]
  intro hy
  have hx : (x : Int) * (B.den : Int) ≤ (y : Int) * (B.den : Int) :=
    mul_le_mul_of_nonneg_right (by exact_mod_cast h) (by positivity)
  exact le_trans hx hy

theorem fitsAt_of_batch_le (m : ModelProfile) (hw : HardwareSpec)
    (method : TrainingMethod) {b b' : Nat} (s : Nat) (l : LoRAConfig)
    (ckpt : Bool) (hb : b ≤ b') :
    fitsAt m hw method b' s l ckpt = true → fitsAt m hw method b s l ckpt = true :=
  fitsBudget_of_le hw.usable_vram_gb (totalBytes_mono m method l ckpt hb le_rfl)

theorem fitsAt_true_of_fitsAt_false (m : ModelProfile) (hw : HardwareSpec)
    (method : TrainingMethod) (b s : Nat) (l : LoRAConfig) :
    fitsAt m hw method b s l false = true → fitsAt m hw method b s l true = true :=
  fitsBudget_of_le hw.usable_vram_gb (totalBytes_ckpt_le m method l b s)

theorem findLargest_eq_none (m : ModelProfile) (hw : HardwareSpec)
    (method : TrainingMethod) (s : Nat) (l : LoRAConfig)
    (h1 : fitsAt m hw method 1 s l true = false) :
    ∀ n, findLargest m hw method s l n = none := by
  intro n
  induction n with
  | zero => rfl
  | succ k ih =>
      have hk : fitsAt m hw method (k + 1) s l true = false := by
        by_contra hc
        have hc' : fitsAt m hw method (k + 1) s l true = true := by
          revert hc
          cases fitsAt m hw method (k + 1) s l true <;> simp
        have := fitsAt_of_batch_le m hw method s l true
          (Nat.succ_le_succ (Nat.zero_le k)) hc'
        rw [h1] at this
        exact Bool.noConfusion this
      unfold findLargest
      simp only [hk, Bool.false_eq_true, if_false]
      exact ih

theorem resolveSeqLen_isOk (seqOpt : Option Int) (dataset : Option DatasetProfile)
    (hpos : ∀ e, seqOpt = some e → 0 < e) :
    ∃ p, resolveSeqLen seqOpt dataset = .ok p := by
  cases seqOpt with
  | some e =>
      have he := hpos e rfl
      refine ⟨(e.toNat, "--seq-len " ++ toString e), ?_⟩
      simp only [resolveSeqLen]
      rw [if_neg (not_le.mpr he)]
  | none =>
      cases dataset with
      | none => exact ⟨_, rfl⟩
      | some d =>
          cases hs : d.seq_len_stats with
          | none =>
              exact ⟨(DEFAULT_SEQ_LEN, "default (" ++ toString DEFAULT_SEQ_LEN ++ ")"),
                by simp [resolveSeqLen, hs]⟩
          | some st =>
              exact ⟨(st.p95, "dataset p95 (" ++ toString st.p95 ++ " tokens)"),
                by simp [resolveSeqLen, hs]⟩

theorem plan_seqLen_thread (profile : ModelProfile) (dataset : Option DatasetProfile)
    (method gpu : String) (seqOpt : Option Int) (rank : Nat)
    (bs es : Option Nat) (r : PlanReport)
    (h : plan profile dataset method gpu seqOpt rank bs es = .ok r) :
    resolveSeqLen seqOpt dataset = .ok (r.seq_len_used, r.seq_len_reasoning) := by
  unfold plan at h
  cases hp : TrainingMethod.parse method with
  | error msg => rw [hp] at h; exact Except.noConfusion h
  | ok tm =>
      rw [hp] at h
      cases hh : get_hardware gpu with
      | error msg => rw [hh] at h; exact Except.noConfusion h
      | ok hw =>
          rw [hh] at h
          cases hsl : resolveSeqLen seqOpt dataset with
          | error msg => rw [hsl] at h; exact Except.noConfusion h
          | ok p =>
              obtain ⟨n, rs⟩ := p
              rw [hsl] at h
              simp only [Except.ok.injEq] at h
              subst h
              rfl

theorem buildConfig_mbs (m : ModelProfile) (hw : HardwareSpec)
    (method : TrainingMethod) (b s : Nat) (l : LoRAConfig) :
    (buildConfig m hw method b s l).micro_batch_size = b := rfl

theorem buildConfig_ckpt_of_tight (m : ModelProfile) (hw : HardwareSpec)
    (method : TrainingMethod) (b s : Nat) (l : LoRAConfig)
    (hf : fitsAt m hw method b s l false = false) :
    (buildConfig m hw method b s l).gradient_checkpointing = true := by
  simp [buildConfig, hf]

theorem buildConfig_reasoning_of_infeasible (m : ModelProfile) (hw : HardwareSpec)
    (method : TrainingMethod) (b s : Nat) (l : LoRAConfig)
    (hf : fitsAt m hw method b s l false = false)
    (ht : fitsAt m hw method b s l true = false) :
    (buildConfig m hw method b s l).reasoning =
      [("verdict", "does_not_fit"),
       ("detail", fitDetail hw (computeBreakdown m method b s l true).totalBytes)] := by
  have ht' : fitsBudget hw.usable_vram_gb
      (computeBreakdown m method b s l true).totalBytes = false := ht
  simp [buildConfig, hf, ht']

theorem lookup_mem_snd (l : List (String × HardwareSpec)) (k : String)
    (v : HardwareSpec) (h : l.lookup k = some v) : v ∈ l.map Prod.snd := by
  induction l with
  | nil => exact Option.noConfusion h
  | cons hd tl ih =>
      obtain ⟨k1, v1⟩ := hd
      simp only [List.lookup] at h
      cases hk : (k == k1) with
      | true =>
          rw [hk] at h
          simp only [Option.some.injEq] at h
          subst h
          exact List.mem_cons_self _ _
      | false =>
          rw [hk] at h
          exact List.mem_cons_of_mem _ (ih h)

/-! ### Claims -/

/-- C2: `plan()` resolves the effective sequence length by a fixed priority:
an explicit positive seq_len wins (non-positive raises an invalid-argument
error naming the value, before any estimation); otherwise the analyzed
dataset's p95 is used when statistics are present; otherwise the default
512 — and the reasoning string of the report records which branch fired. -/
theorem spec_C2 :
    (∀ (e : Int) (d : Option DatasetProfile), 0 < e →
       resolveSeqLen (some e) d = .ok (e.toNat, "--seq-len " ++ toString e)) ∧
    (∀ (e : Int) (d : Option DatasetProfile), e ≤ 0 →
       resolveSeqLen (some e) d =
         .error ("seq_len must be positive, got " ++ toString e)) ∧
    (∀ (d : DatasetProfile) (st : SeqLenStats), d.seq_len_stats = some st →
       resolveSeqLen none (some d) =
         .ok (st.p95, "dataset p95 (" ++ toString st.p95 ++ " tokens)")) ∧
    resolveSeqLen none none = .ok (DEFAULT_SEQ_LEN, "default (512)") ∧
    (∀ (profile : ModelProfile) (dataset : Option DatasetProfile)
       (method gpu : String) (seqOpt : Option Int) (rank : Nat)
       (bs es : Option Nat) (r : PlanReport),
       plan profile dataset method gpu seqOpt rank bs es = .ok r →
       resolveSeqLen seqOpt dataset = .ok (r.seq_len_used, r.seq_len_reasoning)) := by
  refine ⟨?_, ?_, ?_, ?_, ?_⟩
  · intro e d he
    simp only [resolveSeqLen]
    rw [if_neg (not_le.mpr he)]
  · intro e d he
    simp only [resolveSeqLen]
    rw [if_pos he]
  · intro d st hs
    simp [resolveSeqLen, hs]
  · rfl
  · exact fun profile dataset method gpu seqOpt rank bs es r h =>
      plan_seqLen_thread profile dataset method gpu seqOpt rank bs es r h

/-- Witness for C2 at concrete inputs: explicit 1024 wins, −3 errors naming
the value, and a dataset with p95 = 870 resolves that value. -/
theorem spec_C2_witness :
    ((0 : Int) < 1024 ∧
       resolveSeqLen (some 1024) none =
         .ok ((1024 : Int).toNat, "--seq-len " ++ toString (1024 : Int))) ∧
    ((-3 : Int) ≤ 0 ∧
       resolveSeqLen (some (-3)) none =
         .error ("seq_len must be positive, got " ++ toString (-3 : Int))) ∧
    (dsAlpaca.seq_len_stats = some ⟨200, 870, 950, 1000⟩ ∧
       resolveSeqLen none (some dsAlpaca) =
         .ok (870, "dataset p95 (" ++ toString (870 : Nat) ++ " tokens)")) :=
  ⟨⟨by decide, spec_C2.1 1024 none (by decide)⟩,
   ⟨by decide, spec_C2.2.1 (-3) none (by decide)⟩,
   ⟨rfl, spec_C2.2.2.1 dsAlpaca ⟨200, 870, 950, 1000⟩ rfl⟩⟩

/-- C10: when a dataset was analyzed but carries no seq_len_stats and no
explicit seq_len is given, `plan()` falls back to the default 512 with
reasoning "default (512)": the dataset branch fires only when p95
statistics are actually present. -/
theorem spec_C10 :
    ∀ (d : DatasetProfile), d.seq_len_stats = none →
      resolveSeqLen none (some d) = .ok (DEFAULT_SEQ_LEN, "default (512)") ∧
      (∀ (profile : ModelProfile) (method gpu : String) (rank : Nat)
         (bs es : Option Nat) (r : PlanReport),
         plan profile (some d) method gpu none rank bs es = .ok r →
         r.seq_len_used = DEFAULT_SEQ_LEN ∧ r.seq_len_reasoning = "default (512)") := by
  intro d hs
  have hres : resolveSeqLen none (some d) = .ok (DEFAULT_SEQ_LEN, "default (512)") := by
    simp only [resolveSeqLen, hs]
    rfl
  refine ⟨hres, ?_⟩
  intro profile method gpu rank bs es r h
  have ht := plan_seqLen_thread profile (some d) method gpu none rank bs es r h
  rw [hres] at ht
  simp only [Except.ok.injEq, Prod.mk.injEq] at ht
  exact ⟨ht.1.symm, ht.2.symm⟩

/-- Witness for C10: a 50-row dataset without statistics resolves to 512. -/
theorem spec_C10_witness :
    ds50.seq_len_stats = none ∧
    resolveSeqLen none (some ds50) = .ok (DEFAULT_SEQ_LEN, "default (512)") :=
  ⟨rfl, (spec_C10 ds50 rfl).1⟩

/-- C9: `plan()` is deterministic — with identical argument tuples and
identical resolver/analyzer outputs, two calls return identical reports;
the embedding is purely functional, with no hidden state between calls. -/
theorem spec_C9 :
    ∀ (p1 p2 : ModelProfile) (d1 d2 : Option DatasetProfile)
      (method gpu : String) (seqOpt : Option Int) (rank : Nat)
      (bs es : Option Nat),
      p1 = p2 → d1 = d2 →
      plan p1 d1 method gpu seqOpt rank bs es =
        plan p2 d2 method gpu seqOpt rank bs es := by
  intro p1 p2 d1 d2 method gpu seqOpt rank bs es h1 h2
  rw [h1, h2]

/-- Witness for C9 at a concrete call. -/
theorem spec_C9_witness :
    llama8b = llama8b ∧ (none : Option DatasetProfile) = none ∧
    plan llama8b none "qlora" "3090" none 16 none none =
      plan llama8b none "qlora" "3090" none 16 none none :=
  ⟨rfl, rfl,
   spec_C9 llama8b llama8b none none "qlora" "3090" none 16 none none rfl rfl⟩

/-- C3: `plan()` raises an invalid-argument error naming the bad value for
every unknown method string and for every non-positive seq_len, and a
not-found error mentioning the bad name (and listing the known names) for
every unknown GPU string; each check errors out before any solving. -/
theorem spec_C3 :
    (∀ (profile : ModelProfile) (dataset : Option DatasetProfile)
       (method gpu : String) (seqOpt : Option Int) (rank : Nat)
       (bs es : Option Nat) (msg : String),
       TrainingMethod.parse method = .error msg →
       msg = method ++ " is not a valid TrainingMethod" ∧
       plan profile dataset method gpu seqOpt rank bs es =
         .error (.invalidArgument msg)) ∧
    (∀ (profile : ModelProfile) (dataset : Option DatasetProfile)
       (method : String) (tm : TrainingMethod) (gpu : String)
       (seqOpt : Option Int) (rank : Nat) (bs es : Option Nat),
       TrainingMethod.parse method = .ok tm →
       gpuAliasTable.lookup (normalizeKey gpu) = none →
       plan profile dataset method gpu seqOpt rank bs es =
         .error (.notFound ("Unknown GPU: " ++ gpu ++ ". Known GPUs: " ++
           String.intercalate ", " (gpuAliasTable.map Prod.fst)))) ∧
    (∀ (profile : ModelProfile) (dataset : Option DatasetProfile)
       (method : String) (tm : TrainingMethod) (gpu : String)
       (hw : HardwareSpec) (e : Int) (rank : Nat) (bs es : Option Nat),
       TrainingMethod.parse method = .ok tm →
       get_hardware gpu = .ok hw →
       e ≤ 0 →
       plan profile dataset method gpu (some e) rank bs es =
         .error (.invalidArgument ("seq_len must be positive, got " ++ toString e))) := by
  refine ⟨?_, ?_, ?_⟩
  · intro profile dataset method gpu seqOpt rank bs es msg h
    constructor
    · unfold TrainingMethod.parse at h
      split at h
      · exact Except.noConfusion h
      · exact Except.noConfusion h
      · exact Except.noConfusion h
      · simp only [Except.error.injEq] at h
        exact h.symm
    · unfold plan
      rw [h]
  · intro profile dataset method tm gpu seqOpt rank bs es hp hl
    have hh : get_hardware gpu =
        .error ("Unknown GPU: " ++ gpu ++ ". Known GPUs: " ++
          String.intercalate ", " (gpuAliasTable.map Prod.fst)) := by
      unfold get_hardware
      rw [hl]
    unfold plan
    rw [hp, hh]
  · intro profile dataset method tm gpu hw e rank bs es hp hh he
    have hsl : resolveSeqLen (some e) dataset =
        .error ("seq_len must be positive, got " ++ toString e) := by
      simp only [resolveSeqLen]
      rw [if_pos he]
    unfold plan
    rw [hp, hh, hsl]

/-- Witness for C3: "banana" raises invalid-argument mentioning "banana",
"potato" raises not-found mentioning "potato", seq_len −1 raises
invalid-argument naming −1. -/
theorem spec_C3_witness :
    (TrainingMethod.parse "banana" = .error "banana is not a valid TrainingMethod" ∧
       plan llama8b none "banana" "3090" none 16 none none =
         .error (.invalidArgument "banana is not a valid TrainingMethod")) ∧
    (plan llama8b none "qlora" "potato" none 16 none none =
       .error (.notFound ("Unknown GPU: potato. Known GPUs: " ++
         "3090, rtx 3090, 4090, rtx 4090, a100, h100, a10g, t4"))) ∧
    (plan llama8b none "qlora" "3090" (some (-1)) 16 none none =
       .error (.invalidArgument "seq_len must be positive, got -1")) :=
  ⟨⟨rfl,
    (spec_C3.1 llama8b none "banana" "3090" none 16 none none
      "banana is not a valid TrainingMethod" rfl).2⟩,
   spec_C3.2.1 llama8b none "qlora" .qlora "potato" none 16 none none
     rfl rfl,
   spec_C3.2.2 llama8b none "qlora" .qlora "3090" hw3090 (-1) 16 none none
     rfl rfl (by decide)⟩

/-- C1: the solver never raises for infeasibility — when even
micro_batch_size = 1 with checkpointing enabled exceeds the usable budget,
`solve` still returns that minimal configuration annotated
verdict="does_not_fit" with the shortfall detail; and `plan` returns
normally for every valid method, GPU and positive seq_len. -/
theorem spec_C1 :
    (∀ (m : ModelProfile) (hw : HardwareSpec) (method : TrainingMethod)
       (s : Nat) (l : LoRAConfig) (es : Option Nat),
       fitsAt m hw method 1 s l true = false →
       (solve m hw method s l es).recommended.micro_batch_size = 1 ∧
       (solve m hw method s l es).recommended.gradient_checkpointing = true ∧
       (solve m hw method s l es).recommended.reasoning =
         [("verdict", "does_not_fit"),
          ("detail", fitDetail hw (computeBreakdown m method 1 s l true).totalBytes)]) ∧
    (∀ (profile : ModelProfile) (dataset : Option DatasetProfile)
       (method gpu : String) (seqOpt : Option Int) (rank : Nat)
       (bs es : Option Nat) (tm : TrainingMethod) (hw : HardwareSpec),
       TrainingMethod.parse method = .ok tm →
       get_hardware gpu = .ok hw →
       (∀ e, seqOpt = some e → 0 < e) →
       ∃ r, plan profile dataset method gpu seqOpt rank bs es = .ok r) := by
  constructor
  · intro m hw method s l es hinf
    have hnone := findLargest_eq_none m hw method s l hinf MAX_MICRO_BATCH
    have hf : fitsAt m hw method 1 s l false = false := by
      by_contra hc
      have hc' : fitsAt m hw method 1 s l false = true := by
        revert hc
        cases fitsAt m hw method 1 s l false <;> simp
      have := fitsAt_true_of_fitsAt_false m hw method 1 s l hc'
      rw [hinf] at this
      exact Bool.noConfusion this
    have hrec : (solve m hw method s l es).recommended = buildConfig m hw method 1 s l := by
      simp only [solve, hnone]
    rw [hrec]
    exact ⟨buildConfig_mbs m hw method 1 s l,
           buildConfig_ckpt_of_tight m hw method 1 s l hf,
           buildConfig_reasoning_of_infeasible m hw method 1 s l hf hinf⟩
  · intro profile dataset method gpu seqOpt rank bs es tm hw hp hh hpos
    obtain ⟨p, hsl⟩ := resolveSeqLen_isOk seqOpt dataset hpos
    obtain ⟨n, rs⟩ := p
    cases hpl : plan profile dataset method gpu seqOpt rank bs es with
    | ok r => exact ⟨r, rfl⟩
    | error pe =>
        unfold plan at hpl
        rw [hp, hh, hsl] at hpl
        exact Except.noConfusion hpl

/-- Witness for C1: full fine-tuning of the 8B model does not fit the 3090
even at micro batch 1 with checkpointing, yet `solve` returns the minimal
configuration with verdict "does_not_fit", and `plan` returns normally. -/
theorem spec_C1_witness :
    (fitsAt llama8b hw3090 .full 1 512 lcfg16 true = false ∧
       (solve llama8b hw3090 .full 512 lcfg16 none).recommended.micro_batch_size = 1 ∧
       (solve llama8b hw3090 .full 512 lcfg16 none).recommended.gradient_checkpointing = true ∧
       (solve llama8b hw3090 .full 512 lcfg16 none).recommended.reasoning =
         [("verdict", "does_not_fit"),
          ("detail", fitDetail hw3090 (computeBreakdown llama8b .full 1 512 lcfg16 true).totalBytes)]) ∧
    (∃ r, plan llama8b none "full" "3090" none 16 none none = .ok r) :=
  ⟨⟨by decide,
    spec_C1.1 llama8b hw3090 .full 512 lcfg16 none (by decide)⟩,
   spec_C1.2 llama8b none "full" "3090" none 16 none none .full hw3090
     rfl rfl (fun e he => nomatch he)⟩

/-- C5: the VRAMBreakdown total (live sum of the five components plus the
dynamic margin) is monotonically non-decreasing in micro_batch_size and in
seq_len, all other inputs held fixed. -/
theorem spec_C5 :
    ∀ (m : ModelProfile) (method : TrainingMethod) (l : LoRAConfig)
      (ckpt : Bool) (b b' s s' : Nat), b ≤ b' → s ≤ s' →
      (computeBreakdown m method b s l ckpt).totalBytes ≤
        (computeBreakdown m method b' s' l ckpt).totalBytes :=
  fun m method l ckpt _ _ _ _ hb hs => totalBytes_mono m method l ckpt hb hs

/-- Witness for C5: qlora on the 8B model, batch 1 → 2 and seq 512 → 1024. -/
theorem spec_C5_witness :
    ((1 : Nat) ≤ 2 ∧ (512 : Nat) ≤ 1024) ∧
    (computeBreakdown llama8b .qlora 1 512 lcfg16 false).totalBytes ≤
      (computeBreakdown llama8b .qlora 2 1024 lcfg16 false).totalBytes :=
  ⟨⟨by decide, by decide⟩,
   spec_C5 llama8b .qlora lcfg16 false 1 2 512 1024 (by decide) (by decide)⟩

/-- C6: every HardwareSpec the catalog lookup `get_hardware` can return
satisfies usable_vram_gb = total_vram_gb − overhead_gb and
usable_vram_gb ≤ total_vram_gb. -/
theorem spec_C6 :
    ∀ (s : String) (h : HardwareSpec), get_hardware s = .ok h →
      h.usable_vram_gb = h.total_vram_gb - h.overhead_gb ∧
      h.usable_vram_gb ≤ h.total_vram_gb := by
  intro s h hget
  have hmem : h ∈ gpuAliasTable.map Prod.snd := by
    unfold get_hardware at hget
    cases hl : gpuAliasTable.lookup (normalizeKey s) with
    | none => rw [hl] at hget; exact Except.noConfusion hget
    | some v =>
        rw [hl] at hget
        simp only [Except.ok.injEq] at hget
        subst hget
        exact lookup_mem_snd _ _ _ hl
  have hq : ∀ (n : Int), (qi n : ℚ) = (n : ℚ) := by
    intro n
    rw [qi, Rat.mk'_eq_divInt, Rat.divInt_eq_div]
    simp
  have h12 : (q1p2 : ℚ) = 6 / 5 := by
    rw [q1p2, Rat.mk'_eq_divInt, Rat.divInt_eq_div]
    norm_num
  have h228 : (q22p8 : ℚ) = 114 / 5 := by
    rw [q22p8, Rat.mk'_eq_divInt, Rat.divInt_eq_div]
    norm_num
  have h25 : (q2p5 : ℚ) = 5 / 2 := by
    rw [q2p5, Rat.mk'_eq_divInt, Rat.divInt_eq_div]
    norm_num
  have h775 : (q77p5 : ℚ) = 155 / 2 := by
    rw [q77p5, Rat.mk'_eq_divInt, Rat.divInt_eq_div]
    norm_num
  have h15 : (q1p5 : ℚ) = 3 / 2 := by
    rw [q1p5, Rat.mk'_eq_divInt, Rat.divInt_eq_div]
    norm_num
  have h225 : (q22p5 : ℚ) = 45 / 2 := by
    rw [q22p5, Rat.mk'_eq_divInt, Rat.divInt_eq_div]
    norm_num
  simp only [gpuAliasTable, List.map, List.mem_cons, List.not_mem_nil, or_false] at hmem
  rcases hmem with h1 | h1 | h1 | h1 | h1 | h1 | h1 | h1 <;>
    (subst h1; constructor) <;>
    simp [hq, h12, h228, h25, h775, h15, h225] <;> norm_num

/-- Witness for C6: the "3090" lookup. -/
theorem spec_C6_witness :
    get_hardware "3090" = .ok hw3090 ∧
    hw3090.usable_vram_gb = hw3090.total_vram_gb - hw3090.overhead_gb ∧
    hw3090.usable_vram_gb ≤ hw3090.total_vram_gb :=
  ⟨rfl, (spec_C6 "3090" hw3090 rfl).1, (spec_C6 "3090" hw3090 rfl).2⟩

/-- C7: `estimate_fixed()` called with the micro batch size recommended by
`solve()` (same model, hardware, method, seq_len, lora_config) yields the
same verdict and exactly the same total VRAM as the recommended
configuration. -/
theorem spec_C7 :
    ∀ (m : ModelProfile) (hw : HardwareSpec) (method : TrainingMethod)
      (s : Nat) (l : LoRAConfig) (es : Option Nat),
      (estimate_fixed m hw method
          (solve m hw method s l es).recommended.micro_batch_size s l es).recommended.reasoning.lookup "verdict" =
        (solve m hw method s l es).recommended.reasoning.lookup "verdict" ∧
      (estimate_fixed m hw method
          (solve m hw method s l es).recommended.micro_batch_size s l es).recommended.vram_breakdown.totalBytes =
        (solve m hw method s l es).recommended.vram_breakdown.totalBytes := by
  intro m hw method s l es
  have key : (estimate_fixed m hw method
      (solve m hw method s l es).recommended.micro_batch_size s l es).recommended =
      (solve m hw method s l es).recommended := by
    cases hfl : findLargest m hw method s l MAX_MICRO_BATCH with
    | none => simp only [solve, hfl, estimate_fixed, buildConfig_mbs]
    | some b => simp only [solve, hfl, estimate_fixed, buildConfig_mbs]
  exact ⟨by rw [key], by rw [key]⟩

/-- C8: the sanity checker computes ratio = num_rows / (trainable/1e6) and
emits a critical overfitting warning below 10, a warning-severity
overfitting warning between 10 and the soft threshold, and no overfitting
warning above it. -/
theorem spec_C8 :
    ∀ (d : DatasetProfile) (c : TrainingConfig) (t : Nat), 0 < t →
      ((sanityRatio d.num_rows t < CRITICAL_OVERFIT_LIMIT →
          ∃ w ∈ check_training_sanity d c t,
            w.severity = "critical" ∧ w.category = "overfitting") ∧
       (CRITICAL_OVERFIT_LIMIT ≤ sanityRatio d.num_rows t →
          sanityRatio d.num_rows t < SOFT_OVERFIT_LIMIT →
          ∃ w ∈ check_training_sanity d c t,
            w.severity = "warning" ∧ w.category = "overfitting") ∧
       (SOFT_OVERFIT_LIMIT ≤ sanityRatio d.num_rows t →
          ∀ w ∈ check_training_sanity d c t, w.category ≠ "overfitting")) := by
  intro d c t _
  refine ⟨?_, ?_, ?_⟩
  · intro hr
    refine ⟨⟨"critical", "overfitting",
      "only " ++ toString d.num_rows ++ " rows for " ++ toString t ++
        " trainable params; severe overfitting risk"⟩, ?_, rfl, rfl⟩
    apply List.mem_append_left
    unfold overfitWarnings
    rw [if_pos hr]
    exact List.mem_singleton_self _
  · intro h10 h30
    refine ⟨⟨"warning", "overfitting",
      "low data-to-parameter ratio; consider more data or a lower rank"⟩, ?_, rfl, rfl⟩
    apply List.mem_append_left
    unfold overfitWarnings
    rw [if_neg (not_lt.mpr h10), if_pos h30]
    exact List.mem_singleton_self _
  · intro h30 w hw
    have h10 : CRITICAL_OVERFIT_LIMIT ≤ sanityRatio d.num_rows t := by
      refine le_trans ?_ h30
      rw [CRITICAL_OVERFIT_LIMIT, SOFT_OVERFIT_LIMIT]
      norm_num
    rcases List.mem_append.mp hw with hmem | hmem
    · rw [overfitWarnings, if_neg (not_lt.mpr h10), if_neg (not_lt.mpr h30)] at hmem
      exact absurd hmem (List.not_mem_nil w)
    · unfold insufficientWarnings at hmem
      split at hmem
      · rw [List.mem_singleton] at hmem
        subst hmem
        decide
      · exact absurd hmem (List.not_mem_nil w)

/-- Witness for C8: 50 rows against 160M trainable params (ratio 0.3125)
yields a critical overfitting warning. -/
theorem spec_C8_witness :
    ((0 : Nat) < 160000000 ∧ sanityRatio ds50.num_rows 160000000 < CRITICAL_OVERFIT_LIMIT) ∧
    (∃ w ∈ check_training_sanity ds50 cfgQ 160000000,
       w.severity = "critical" ∧ w.category = "overfitting") :=
  ⟨⟨by decide, by
     rw [sanityRatio, CRITICAL_OVERFIT_LIMIT]
     norm_num [ds50]⟩,
   (spec_C8 ds50 cfgQ 160000000 (by decide)).1 (by
     rw [sanityRatio, CRITICAL_OVERFIT_LIMIT]
     norm_num [ds50])⟩

end Fitcheck

namespace Aegis

/-- C4 (counterexample): the claimed strict ordering
qlora < lora < full of the weight-component estimates fails at
params_b = 7 — `_estimate_model_vram_gb` assigns the same 2 bytes/param to
lora and full, so the lora and full estimates are equal (both 14 GB). -/
theorem spec_C4_counterexample :
    ¬ (estimate_model_vram_gb 7 "qlora" false < estimate_model_vram_gb 7 "lora" false ∧
       estimate_model_vram_gb 7 "lora" false < estimate_model_vram_gb 7 "full" false) := by
  intro h
  have heq : estimate_model_vram_gb 7 "lora" false = estimate_model_vram_gb 7 "full" false := by
    unfold estimate_model_vram_gb
    rw [if_neg (by decide : ¬ (("lora" : String) = "qlora")),
        if_neg (by decide : ¬ (("full" : String) = "qlora"))]
  have h2 := h.2
  rw [heq] at h2
  exact lt_irrefl _ h2

/-- C4 (amended): for every positive parameter count and MoE flag, the
qlora weight estimate is strictly below the lora estimate, and the lora
estimate equals the full estimate (2 bytes/param for both). -/
theorem spec_C4 :
    ∀ (p : ℚ), 0 < p → ∀ (moe : Bool),
      estimate_model_vram_gb p "qlora" moe < estimate_model_vram_gb p "lora" moe ∧
      estimate_model_vram_gb p "lora" moe = estimate_model_vram_gb p "full" moe := by
  intro p hp moe
  have hl : ¬ (("lora" : String) = "qlora") := by decide
  have hf : ¬ (("full" : String) = "qlora") := by decide
  have heq : estimate_model_vram_gb p "lora" moe = estimate_model_vram_gb p "full" moe := by
    unfold estimate_model_vram_gb
    rw [if_neg hl, if_neg hf]
  refine ⟨?_, heq⟩
  unfold estimate_model_vram_gb
  rw [if_pos (rfl : ("qlora" : String) = "qlora"), if_neg hl]
  cases moe with
  | false =>
      rw [if_neg (by decide : ¬ (false = true)), if_neg (by decide : ¬ (false = true))]
      linarith
  | true =>
      rw [if_pos (rfl : true = true), if_pos (rfl : true = true)]
      linarith

/-- Witness for C4 (amended) at params_b = 7. -/
theorem spec_C4_witness :
    (0 : ℚ) < 7 ∧
    (estimate_model_vram_gb 7 "qlora" false < estimate_model_vram_gb 7 "lora" false ∧
     estimate_model_vram_gb 7 "lora" false = estimate_model_vram_gb 7 "full" false) :=
  ⟨by norm_num, spec_C4 7 (by norm_num) false⟩

end Aegis
